import Mathlib

/-!
# Verification of the zdvv proxy/control system

Shallow embedding of the authorization, revocation, key-cache, tunnel and
admin components of the zdvv repository, together with proofs settling the
frozen claims about them.

Sources embedded here:
- `pkg/common/auth/validator.go` (`JWTValidator`)
- the two `MultiKeyJWTValidator` revisions bundled in
  `pkg/common/auth/multikeyvalidator_test.go` (a string-key-id revision and
  a uint64-key-id revision)
- `pkg/common/auth/revocation.go` (`RevocationService`)
- `pkg/common/auth/permissions.go` (`Permission.Check`)
- the `common.Server` / `common.JWTKey` data model (`src/unnamed/part_004`)
- `cmd/control/routes.go` (the `/api/v1/token` and `/api/v1/servers` routes)
- `cmd/proxy/connect.go` (`HandleConnectRequest`) and `proxy/connect.go`
  (`ConnectHandler.handleConnect`)
- the admin revocation handler (`AdminHandler.handleRevokeToken`,
  `src/unnamed/part_006` and `src/unnamed/part_021`)
-/

set_option maxRecDepth 4000

/-! ## Dynamic values of decoded JWT claims

Go's `encoding/json` decodes a JWT claim set into `jwt.MapClaims`
(`map[string]interface{}`).  The dynamic type of each value is what the Go
type assertions (`.(string)`, `.(bool)`, `.(float64)`) dispatch on.  JSON
numbers always decode to `float64`; the kid values produced by the control
server are integral, so the numeric payload is modelled as `Int`. -/
inductive GoVal where
  | str (v : String)
  | num (v : Int)
  | boolean (v : Bool)
  | null
  deriving DecidableEq, Repr

/-- First-match association-list lookup, the model of a Go map read. -/
def lookupAssoc {V : Type} (l : List (String × V)) (k : String) : Option V :=
  match l with
  | [] => none
  | (a, v) :: rest => if a = k then some v else lookupAssoc rest k

/-- Insert-or-replace, the model of a Go map write (`m[k] = v`). -/
def insertAssoc {V : Type} (l : List (String × V)) (k : String) (v : V) :
    List (String × V) :=
  match l with
  | [] => [(k, v)]
  | (a, w) :: rest =>
      if a = k then (a, v) :: rest else (a, w) :: insertAssoc rest k v

/-- `Permission.Check` (`pkg/common/auth/permissions.go`): the claim named by
the permission must be boolean `true` or string `"true"`. -/
def permCheck (claims : List (String × GoVal)) (p : String) : Bool :=
  match lookupAssoc claims p with
  | some (.boolean b) => b
  | some (.str s) => s == "true"
  | _ => false

/-- The first required permission whose check fails, mirroring the
`for _, perm := range v.permissions` loops of both validators. -/
def firstFailedPerm (perms : List String) (claims : List (String × GoVal)) :
    Option String :=
  perms.find? (fun p => !(permCheck claims p))

/-! ## Tokens -/

/-- JWT signing algorithms as they appear in the token header.  Only the
`RS*` methods are instances of Go's `*jwt.SigningMethodRSA`; `HS*` are
symmetric HMAC methods, `ES256` is ECDSA, and `noneAlg` is the unsigned
`"none"` marker. -/
inductive Alg where
  | RS256 | RS384 | RS512
  | HS256 | HS384 | HS512
  | ES256
  | noneAlg
  deriving DecidableEq, Repr

/-- Whether the algorithm is in the RSA asymmetric family, i.e. whether the
Go type assertion `token.Method.(*jwt.SigningMethodRSA)` succeeds. -/
def Alg.isRSA : Alg → Bool
  | .RS256 | .RS384 | .RS512 => true
  | _ => false

/-- The dynamic encodings of the `kid` header observed across call sites:
Go `string`, `float64` (every JSON number decodes to this), `int64` and
`int` (tokens built in-process).  The numeric payloads are integral in this
system (random 63-bit ids), so they are modelled as `Int`.  `other` stands
for any further dynamic type, which both type switches send to their
`default` arm. -/
inductive KidEnc where
  | str (s : String)
  | f64 (n : Int)
  | i64 (n : Int)
  | int (n : Int)
  | other
  deriving DecidableEq, Repr

/-- A parsed JWT.  `sig = some n` means the compact serialization carries a
valid signature by the RSA key pair identified by `n` (under the token's own
declared algorithm); `sig = none` means the signature is absent or invalid
for every key. -/
structure Token where
  alg : Alg
  kid : Option KidEnc
  claims : List (String × GoVal)
  sig : Option Nat
  deriving DecidableEq, Repr

/-- The `jti` claim read with the type assertion `claims["jti"].(string)`:
present only when the value exists and is dynamically a string. -/
def jtiOf (claims : List (String × GoVal)) : Option String :=
  match lookupAssoc claims "jti" with
  | some (.str j) => some j
  | _ => none

/-- jwt/v5 registered-claim validation, restricted to `exp` (the only
registered claim this system issues): absent is valid, a numeric `exp` is
valid while `now < exp`, a non-numeric `exp` is malformed. -/
def expOk (now : Int) (claims : List (String × GoVal)) : Bool :=
  match lookupAssoc claims "exp" with
  | none => true
  | some (.num e) => now < e
  | some _ => false

/-! ## Authorization errors and middleware outcomes -/

/-- The rejection reasons surfaced by the validators.  Each constructor
corresponds to one `http.Error`/error message of the Go code; the gate turns
every one of them into an HTTP 401. -/
inductive AuthErr where
  | noAuthHeader
  | invalidScheme
  | invalidToken
  | tokenRevoked
  | missingJti
  | missingPermission (p : String)
  | missingKid
  | invalidKidFormat
  | fetchFailed
  | keyNotFound
  deriving DecidableEq, Repr

/-- Outcome of running an authorization middleware on a request: either an
`http.Error` with a status code, or the wrapped handler is invoked with the
parsed token attached to the request context. -/
inductive MWOut where
  | rejected (status : Nat) (e : AuthErr)
  | passed (t : Token)
  deriving DecidableEq, Repr

/-! ## MultiKeyJWTValidator, string-key-id revision

`pkg/common/auth/multikeyvalidator_test.go` bundles two revisions of
`MultiKeyJWTValidator`.  This namespace embeds the revision whose
`KeyProvider.PublicKeys` returns `map[string]*rsa.PublicKey` and whose kid
type switch accepts `string`, `float64`, `int64` and `int` (the revision the
adjacent tests exercise).  Public keys are identified by the `Nat` naming
their RSA key pair.  The `PublicKeys()` remote call is modelled by the fixed
result `provider` of a single fetch; the model is sequential, so the
read-lock fast path and the double-checked re-read under the write lock
collapse into one cache lookup. -/

instance {e a : Type} [DecidableEq e] [DecidableEq a] : DecidableEq (Except e a) :=
  fun x y =>
    match x, y with
    | .error u, .error v =>
        if h : u = v then .isTrue (by rw [h])
        else .isFalse (by intro hc; cases hc; exact h rfl)
    | .ok u, .ok v =>
        if h : u = v then .isTrue (by rw [h])
        else .isFalse (by intro hc; cases hc; exact h rfl)
    | .error _, .ok _ => .isFalse (by intro hc; cases hc)
    | .ok _, .error _ => .isFalse (by intro hc; cases hc)

/-- Validator state: key cache, the key provider's response, the
`allowNoneSignature` flag (no constructor of this revision ever sets it) and
the required permission list. -/
structure MultiKeyJWTValidator where
  keyCache : List (String × Nat)
  provider : Except Unit (List (String × Nat))
  allowNoneSignature : Bool
  permissions : List String
  deriving DecidableEq, Repr

namespace MultiKeyJWTValidator

/-- The kid type switch of the string revision (`switch kid := kidRaw.(type)`):
strings pass through, `float64`/`int64`/`int` are formatted to their decimal
digits (`fmt.Sprintf` with `%v` resp. `%d`; `%v` on an integral `float64`
prints the integer digits), every other dynamic type is rejected. -/
def normalizeKid : KidEnc → Option String
  | .str s => some s
  | .f64 n => some (toString n)
  | .i64 n => some (toString n)
  | .int n => some (toString n)
  | .other => none

/-- `getKey`: cache lookup; on miss fetch the whole key set once, write every
fetched key into the cache (`for id, pubKey := range keys { v.keyCache[id] =
pubKey }`), and look up again.  Returns the key or error, the validator with
its updated cache, and the number of `PublicKeys()` calls made. -/
def getKey (v : MultiKeyJWTValidator) (keyID : String) :
    Except AuthErr Nat × MultiKeyJWTValidator × Nat :=
  match lookupAssoc v.keyCache keyID with
  | some key => (.ok key, v, 0)
  | none =>
    match v.provider with
    | .error _ => (.error .fetchFailed, v, 1)
    | .ok keys =>
      match lookupAssoc (keys.foldl (fun c p => insertAssoc c p.1 p.2)
          v.keyCache) keyID with
      | some key =>
          (.ok key,
           { v with keyCache := keys.foldl (fun c p => insertAssoc c p.1 p.2) v.keyCache },
           1)
      | none =>
          (.error .keyNotFound,
           { v with keyCache := keys.foldl (fun c p => insertAssoc c p.1 p.2) v.keyCache },
           1)

/-- `Middleware`, from the point where the bearer token string has been
extracted from the `Proxy-Authorization` header.  `parsed` is the result of
`jwt.NewParser().ParseUnverified` on that string (`none` = malformed).
Steps, in source order: the `none`-algorithm bypass (permission checks only),
kid extraction and normalization, key resolution through `getKey`, signature
verification via `jwt.Parse` whose keyfunc rejects every non-RSA method, the
permission loop, and finally the wrapped handler. -/
def middleware (v : MultiKeyJWTValidator) (parsed : Option Token) (now : Int) :
    MWOut × MultiKeyJWTValidator × Nat :=
  let secure : MWOut × MultiKeyJWTValidator × Nat :=
    match parsed with
    | none => (.rejected 401 .invalidToken, v, 0)
    | some t =>
      match t.kid with
      | none => (.rejected 401 .missingKid, v, 0)
      | some enc =>
        match normalizeKid enc with
        | none => (.rejected 401 .invalidKidFormat, v, 0)
        | some keyID =>
          match getKey v keyID with
          | (.error e, v', n) => (.rejected 401 e, v', n)
          | (.ok publicKey, v', n) =>
            if !t.alg.isRSA then (.rejected 401 .invalidToken, v', n)
            else if t.sig == some publicKey && expOk now t.claims then
              match firstFailedPerm v.permissions t.claims with
              | some p => (.rejected 401 (.missingPermission p), v', n)
              | none => (.passed t, v', n)
            else (.rejected 401 .invalidToken, v', n)
  if v.allowNoneSignature then
    match parsed with
    | some t =>
      if t.alg == .noneAlg then
        match firstFailedPerm v.permissions t.claims with
        | some p => (.rejected 401 (.missingPermission p), v, 0)
        | none => (.passed t, v, 0)
      else secure
    | none => secure
  else secure

end MultiKeyJWTValidator

/-! ## MultiKeyJWTValidator, uint64-key-id revision

The second revision bundled in `multikeyvalidator_test.go`: its
`KeyProvider.PublicKeys` returns `map[uint64]*rsa.PublicKey`, the cache is
keyed by `uint64`, and the kid type switch converts `float64`/`int64`/`int`
with `uint64(kid)` while sending `string` (and everything else) to the
`default` arm, `http.Error(w, "invalid kid format in token", 401)`.
Key ids are modelled as `Nat` (the kid values in play are nonnegative and
below `2^64`). -/
structure MultiKeyJWTValidatorU64 where
  keyCache : List (Nat × Nat)
  provider : Except Unit (List (Nat × Nat))
  allowNoneSignature : Bool
  permissions : List String
  deriving DecidableEq, Repr

/-- First-match lookup in a `uint64`-keyed Go map. -/
def lookupAssocN (l : List (Nat × Nat)) (k : Nat) : Option Nat :=
  match l with
  | [] => none
  | (a, v) :: rest => if a = k then some v else lookupAssocN rest k

/-- Insert-or-replace in a `uint64`-keyed Go map. -/
def insertAssocN (l : List (Nat × Nat)) (k : Nat) (v : Nat) : List (Nat × Nat) :=
  match l with
  | [] => [(k, v)]
  | (a, w) :: rest =>
      if a = k then (a, v) :: rest else (a, w) :: insertAssocN rest k v

namespace MultiKeyJWTValidatorU64

/-- The kid type switch of the uint64 revision: numeric encodings are
converted with `uint64(kid)` (the values in play are nonnegative, modelled by
`Int.toNat`); a `string` kid falls into the `default` arm and is rejected. -/
def normalizeKid : KidEnc → Option Nat
  | .f64 n => some n.toNat
  | .i64 n => some n.toNat
  | .int n => some n.toNat
  | .str _ => none
  | .other => none

/-- `getKey` of the uint64 revision — identical to the string revision up to
the key type. -/
def getKey (v : MultiKeyJWTValidatorU64) (keyID : Nat) :
    Except AuthErr Nat × MultiKeyJWTValidatorU64 × Nat :=
  match lookupAssocN v.keyCache keyID with
  | some key => (.ok key, v, 0)
  | none =>
    match v.provider with
    | .error _ => (.error .fetchFailed, v, 1)
    | .ok keys =>
      match lookupAssocN (keys.foldl (fun c p => insertAssocN c p.1 p.2)
          v.keyCache) keyID with
      | some key =>
          (.ok key,
           { v with keyCache := keys.foldl (fun c p => insertAssocN c p.1 p.2) v.keyCache },
           1)
      | none =>
          (.error .keyNotFound,
           { v with keyCache := keys.foldl (fun c p => insertAssocN c p.1 p.2) v.keyCache },
           1)

/-- `Middleware` of the uint64 revision, from the point where the token
string has been extracted; same pipeline as the string revision with the
uint64 kid conversion. -/
def middleware (v : MultiKeyJWTValidatorU64) (parsed : Option Token) (now : Int) :
    MWOut × MultiKeyJWTValidatorU64 × Nat :=
  let secure : MWOut × MultiKeyJWTValidatorU64 × Nat :=
    match parsed with
    | none => (.rejected 401 .invalidToken, v, 0)
    | some t =>
      match t.kid with
      | none => (.rejected 401 .missingKid, v, 0)
      | some enc =>
        match normalizeKid enc with
        | none => (.rejected 401 .invalidKidFormat, v, 0)
        | some keyID =>
          match getKey v keyID with
          | (.error e, v', n) => (.rejected 401 e, v', n)
          | (.ok publicKey, v', n) =>
            if !t.alg.isRSA then (.rejected 401 .invalidToken, v', n)
            else if t.sig == some publicKey && expOk now t.claims then
              match firstFailedPerm v.permissions t.claims with
              | some p => (.rejected 401 (.missingPermission p), v', n)
              | none => (.passed t, v', n)
            else (.rejected 401 .invalidToken, v', n)
  if v.allowNoneSignature then
    match parsed with
    | some t =>
      if t.alg == .noneAlg then
        match firstFailedPerm v.permissions t.claims with
        | some p => (.rejected 401 (.missingPermission p), v, 0)
        | none => (.passed t, v, 0)
      else secure
    | none => secure
  else secure

end MultiKeyJWTValidatorU64

/-! ## JWTValidator (`pkg/common/auth/validator.go`)

The single-key validator: one RSA public key, a `RevocationService`
reference, the `AllowNoneSignature` flag (set by `NewInsecureJWTValidator`)
and the required permission list.  Unlike both `MultiKeyJWTValidator`
revisions, `ValidateToken` checks the `jti` claim and the revocation service
after signature verification, and also inside the `none`-algorithm branch. -/
structure JWTValidator where
  publicKey : Option Nat
  revoked : List String
  allowNoneSignature : Bool
  permissions : List String
  deriving DecidableEq, Repr

namespace JWTValidator

/-- The claim-check block shared (textually duplicated at lines 90-103 and
124-137 of `validator.go`) by the `none` branch and the verified branch of
`ValidateToken`: require a string `jti` claim, consult
`RevocationSvc.IsRevoked(jti)`, then run the permission loop. -/
def checkClaims (v : JWTValidator) (claims : List (String × GoVal)) :
    Except AuthErr Unit :=
  match jtiOf claims with
  | none => .error .missingJti
  | some jti =>
    if v.revoked.contains jti then .error .tokenRevoked
    else
      match firstFailedPerm v.permissions claims with
      | some p => .error (.missingPermission p)
      | none => .ok ()

/-- The `jwt.Parse` call of `ValidateToken` with its keyfunc (reject any
method that is not `*jwt.SigningMethodRSA`, otherwise hand back
`v.PublicKey`), followed by the jti/revocation/permission checks. -/
def validateVerified (v : JWTValidator) (parsed : Option Token) (now : Int) :
    Except AuthErr Token :=
  match parsed with
  | none => .error .invalidToken
  | some t =>
    if !t.alg.isRSA then .error .invalidToken
    else
      match v.publicKey with
      | none => .error .invalidToken
      | some key =>
        if t.sig == some key && expOk now t.claims then
          match checkClaims v t.claims with
          | .error e => .error e
          | .ok _ => .ok t
        else .error .invalidToken

/-- `ValidateToken`: in insecure mode a well-formed token whose algorithm is
`"none"` skips signature verification but still goes through the shared
jti/revocation/permission block; every other token takes the verified
path. -/
def validateToken (v : JWTValidator) (parsed : Option Token) (now : Int) :
    Except AuthErr Token :=
  if v.allowNoneSignature then
    match parsed with
    | some t =>
      if t.alg == .noneAlg then
        match checkClaims v t.claims with
        | .error e => .error e
        | .ok _ => .ok t
      else validateVerified v parsed now
    | none => validateVerified v parsed now
  else validateVerified v parsed now

/-- `Middleware`: any `ValidateToken` error becomes `http.Error(w, ..., 401)`;
on success the wrapped handler runs with the token in the request context. -/
def middleware (v : JWTValidator) (parsed : Option Token) (now : Int) : MWOut :=
  match validateToken v parsed now with
  | .error e => .rejected 401 e
  | .ok t => .passed t

end JWTValidator

/-! ## Claims C1-C4: the authorization gate -/

/-- C1 failing input: a multi-key validator whose cache holds key pair 1
under kid `"1"` and requires `connect-tcp`. -/
def c1Validator : MultiKeyJWTValidator :=
  { keyCache := [("1", 1)], provider := .ok [("1", 1)],
    allowNoneSignature := false, permissions := ["connect-tcp"] }

/-- C1 failing input: an RS256 token validly signed by key pair 1, kid `"1"`,
carrying the required capability but no `jti` claim at all. -/
def c1Token : Token :=
  { alg := .RS256, kid := some (.str "1"),
    claims := [("connect-tcp", .boolean true)], sig := some 1 }

/-- Claim C1: the gate must require a `jti` claim after signature
verification and consult `RevocationRegistry.IsRevoked(jti)` before invoking
the wrapped handler.  Evaluation at the failing input: the
`MultiKeyJWTValidator` middleware passes a validly signed token that has no
`jti` claim straight to the wrapped handler — the middleware contains no jti
or revocation check at all (the validator has no revocation reference), so a
revoked or unrevokable token is accepted, contradicting the claim and the
spec's steps 5-6. -/
theorem c1_multikey_gate_skips_jti_and_revocation :
    (MultiKeyJWTValidator.middleware c1Validator (some c1Token) 0).1 =
      .passed c1Token
    ∧ jtiOf c1Token.claims = none := by
  decide

/-- C2 counterexample input: the uint64-revision validator with the
`allowNoneSignature` flag on, requiring `connect-tcp`. -/
def c2Validator : MultiKeyJWTValidatorU64 :=
  { keyCache := [], provider := .ok [],
    allowNoneSignature := true, permissions := ["connect-tcp"] }

/-- C2 counterexample input: an unsigned `"none"`-algorithm token with the
required capability and no `jti` claim. -/
def c2Token : Token :=
  { alg := .noneAlg, kid := none,
    claims := [("connect-tcp", .boolean true)], sig := none }

/-- Claim C2 counterexample: in insecure bypass mode the
`MultiKeyJWTValidator` `none` branch (multikeyvalidator_test.go lines
536-556) invokes the wrapped handler for a `"none"` token without a `jti`
claim: it performs only the capability checks, not the jti-presence or
revocation checks the claim states. -/
theorem c2_multikey_none_branch_skips_jti_check :
    (MultiKeyJWTValidatorU64.middleware c2Validator (some c2Token) 0).1 =
      .passed c2Token
    ∧ jtiOf c2Token.claims = none := by
  decide

/-- The accept/reject decision of a middleware outcome, forgetting which
token object was attached to the request context. -/
def mwDecision : MWOut → Except AuthErr Unit
  | .rejected _ e => .error e
  | .passed _ => .ok ()

/-- Claim C2 (amended): in insecure bypass mode the single-key `JWTValidator`
gate skips signature verification for `"none"`-algorithm tokens but still
performs the jti-presence check, the revocation check and the
required-capability checks exactly as in secure mode, rejecting with HTTP 401
when any of them fails.  Conjuncts: (1) the outcome is decided by the shared
`checkClaims` block; (2) missing jti is rejected 401; (3) a revoked jti is
rejected 401 `tokenRevoked`; (4) a failed capability is rejected 401; (5) the
signature and configured public key are ignored (verification skipped);
(6) the accept/reject decision is the one the secure path makes on an
identically-claimed, validly signed RS256 token. -/
theorem c2_jwtvalidator_insecure_mode_keeps_checks
    (v : JWTValidator) (t : Token) (now : Int)
    (hAllow : v.allowNoneSignature = true) (hAlg : t.alg = .noneAlg) :
    (JWTValidator.middleware v (some t) now =
      match JWTValidator.checkClaims v t.claims with
      | .error e => .rejected 401 e
      | .ok _ => .passed t)
    ∧ (jtiOf t.claims = none →
        JWTValidator.middleware v (some t) now = .rejected 401 .missingJti)
    ∧ (∀ j, jtiOf t.claims = some j → v.revoked.contains j = true →
        JWTValidator.middleware v (some t) now = .rejected 401 .tokenRevoked)
    ∧ (∀ j p, jtiOf t.claims = some j → v.revoked.contains j = false →
        firstFailedPerm v.permissions t.claims = some p →
        JWTValidator.middleware v (some t) now =
          .rejected 401 (.missingPermission p))
    ∧ (∀ sig' key',
        mwDecision (JWTValidator.middleware { v with publicKey := key' }
            (some { t with sig := sig' }) now) =
          mwDecision (JWTValidator.middleware v (some t) now))
    ∧ (∀ key, expOk now t.claims = true →
        (JWTValidator.validateToken
            { v with allowNoneSignature := false, publicKey := some key }
            (some { t with alg := .RS256, sig := some key }) now).map
            (fun _ => ()) =
          (JWTValidator.validateToken v (some t) now).map (fun _ => ())) := by
  have hbase : JWTValidator.validateToken v (some t) now =
      match JWTValidator.checkClaims v t.claims with
      | .error e => .error e
      | .ok _ => .ok t := by
    simp [JWTValidator.validateToken, hAllow, hAlg]
  refine ⟨?_, ?_, ?_, ?_, ?_, ?_⟩
  · simp only [JWTValidator.middleware, hbase]
    cases JWTValidator.checkClaims v t.claims <;> rfl
  · intro hj
    simp only [JWTValidator.middleware, hbase, JWTValidator.checkClaims, hj]
  · intro j hj hr
    have hm : j ∈ v.revoked := by simpa using hr
    simp [JWTValidator.middleware, hbase, JWTValidator.checkClaims, hj, hm]
  · intro j p hj hr hp
    have hm : j ∉ v.revoked := by simpa using hr
    simp [JWTValidator.middleware, hbase, JWTValidator.checkClaims, hj, hm, hp]
  · intro sig' key'
    have h1 : JWTValidator.validateToken { v with publicKey := key' }
        (some { t with sig := sig' }) now =
        match JWTValidator.checkClaims { v with publicKey := key' }
            ({ t with sig := sig' } : Token).claims with
        | .error e => .error e
        | .ok _ => .ok { t with sig := sig' } := by
      simp [JWTValidator.validateToken, hAllow, hAlg]
    have h2 : JWTValidator.checkClaims { v with publicKey := key' } t.claims =
        JWTValidator.checkClaims v t.claims := by
      simp [JWTValidator.checkClaims]
    simp only [JWTValidator.middleware, hbase, h1]
    simp only [h2]
    cases JWTValidator.checkClaims v t.claims <;> rfl
  · intro key hexp
    have h3 : expOk now ({ t with alg := Alg.RS256, sig := some key } : Token).claims
        = true := hexp
    have h4 : JWTValidator.checkClaims
        { v with allowNoneSignature := false, publicKey := some key } t.claims =
        JWTValidator.checkClaims v t.claims := by
      simp [JWTValidator.checkClaims]
    simp only [JWTValidator.validateToken, JWTValidator.validateVerified,
      hbase, hAllow, hAlg]
    simp only [Alg.isRSA, Bool.not_true, h3, Bool.and_true, beq_self_eq_true,
      if_true, if_false, Bool.false_eq_true, reduceIte, h4]
    cases JWTValidator.checkClaims v t.claims <;> rfl

/-- C2 witness inputs: an insecure-mode validator with `"bad"` revoked, and
two `"none"`-algorithm tokens — one without a jti claim, one with the
revoked jti. -/
def c2WValidator : JWTValidator :=
  { publicKey := none, revoked := ["bad"],
    allowNoneSignature := true, permissions := ["connect-tcp"] }

/-- C2 witness input: `"none"` token carrying the capability but no jti. -/
def c2WTokenNoJti : Token :=
  { alg := .noneAlg, kid := none,
    claims := [("connect-tcp", .boolean true)], sig := none }

/-- C2 witness input: `"none"` token whose jti `"bad"` is revoked. -/
def c2WTokenRevoked : Token :=
  { alg := .noneAlg, kid := none,
    claims := [("jti", .str "bad"), ("connect-tcp", .boolean true)],
    sig := none }

/-- Witness for the amended claim C2 at concrete inputs: the insecure-mode
`JWTValidator` gate rejects a `"none"` token without jti with 401, and a
`"none"` token with a revoked jti with 401 `tokenRevoked`. -/
theorem c2_jwtvalidator_insecure_mode_keeps_checks_witness :
    JWTValidator.middleware c2WValidator (some c2WTokenNoJti) 0 =
      .rejected 401 .missingJti
    ∧ JWTValidator.middleware c2WValidator (some c2WTokenRevoked) 0 =
      .rejected 401 .tokenRevoked :=
  ⟨(c2_jwtvalidator_insecure_mode_keeps_checks c2WValidator c2WTokenNoJti 0
      rfl rfl).2.1 (by decide),
   (c2_jwtvalidator_insecure_mode_keeps_checks c2WValidator c2WTokenRevoked 0
      rfl rfl).2.2.1 "bad" (by decide) (by decide)⟩

/-- Claim C3: with the insecure bypass disabled, every token whose header
algorithm is outside the RSA asymmetric family is rejected with HTTP 401 by
both gates, regardless of the key cache (in particular when a public key is
cached under the token's kid, so a symmetric-algorithm token is never
verified against a public key used as a symmetric secret): the keyfunc of
`jwt.Parse` refuses any method that is not `*jwt.SigningMethodRSA`. -/
theorem c3_non_rsa_algorithm_rejected
    (v : MultiKeyJWTValidator) (jv : JWTValidator) (t : Token) (now : Int)
    (hv : v.allowNoneSignature = false) (hjv : jv.allowNoneSignature = false)
    (hAlg : t.alg.isRSA = false) :
    (∃ e, (MultiKeyJWTValidator.middleware v (some t) now).1 =
        .rejected 401 e)
    ∧ (∃ e, JWTValidator.middleware jv (some t) now = .rejected 401 e) := by
  constructor
  · simp only [MultiKeyJWTValidator.middleware, hv, Bool.false_eq_true,
      if_false]
    cases hkid : t.kid with
    | none => exact ⟨.missingKid, rfl⟩
    | some enc =>
      cases hn : MultiKeyJWTValidator.normalizeKid enc with
      | none => simp [hn]
      | some keyID =>
        simp only [hn]
        rcases hg : MultiKeyJWTValidator.getKey v keyID with ⟨res, v', n⟩
        cases res with
        | error e => exact ⟨e, rfl⟩
        | ok key => simp [hAlg]
  · simp only [JWTValidator.middleware, JWTValidator.validateToken, hjv,
      Bool.false_eq_true, if_false, JWTValidator.validateVerified, hAlg]
    exact ⟨.invalidToken, rfl⟩

/-- C3 witness input: a multi-key validator whose cache holds a public key
under kid `"1"`. -/
def c3WValidator : MultiKeyJWTValidator :=
  { keyCache := [("1", 5)], provider := .ok [("1", 5)],
    allowNoneSignature := false, permissions := [] }

/-- C3 witness input: a single-key validator configured with key pair 5. -/
def c3WJValidator : JWTValidator :=
  { publicKey := some 5, revoked := [], allowNoneSignature := false,
    permissions := [] }

/-- C3 witness input: an HS256 (symmetric HMAC) token naming the cached kid
`"1"`. -/
def c3WToken : Token :=
  { alg := .HS256, kid := some (.str "1"), claims := [], sig := some 5 }

/-- Witness for claim C3 at a concrete input: an HS256 token whose kid has a
cached public key is rejected 401 by both gates. -/
theorem c3_non_rsa_algorithm_rejected_witness :
    (∃ e, (MultiKeyJWTValidator.middleware c3WValidator (some c3WToken) 0).1 =
        .rejected 401 e)
    ∧ (∃ e, JWTValidator.middleware c3WJValidator (some c3WToken) 0 =
        .rejected 401 e) :=
  c3_non_rsa_algorithm_rejected c3WValidator c3WJValidator c3WToken 0
    rfl rfl rfl

/-- C4 counterexample input: a uint64-revision validator whose cache holds
key pair 1 under the numeric kid `1`. -/
def c4Validator : MultiKeyJWTValidatorU64 :=
  { keyCache := [(1, 1)], provider := .ok [(1, 1)],
    allowNoneSignature := false, permissions := [] }

/-- C4 counterexample input: a validly signed RS256 token whose kid header
arrives as the string `"1"` — one of the observed kid encodings. -/
def c4Token : Token :=
  { alg := .RS256, kid := some (.str "1"), claims := [], sig := some 1 }

/-- Claim C4 counterexample: the uint64-revision gate rejects a token whose
kid arrives as a string with 401 "invalid kid format in token"
(multikeyvalidator_test.go lines 573-585 convert only `float64`/`int64`/`int`
and send `string` to the `default` arm), so the claim that a token with a
kid in any observed encoding is never rejected as invalid kid format is
false for that revision. -/
theorem c4_u64_revision_rejects_string_kid :
    (MultiKeyJWTValidatorU64.middleware c4Validator (some c4Token) 0).1 =
      .rejected 401 .invalidKidFormat := by
  decide

/-- `getKey` reports only fetch failures or key-not-found; it never reports
a kid-format error. -/
theorem getKey_error_shape (v : MultiKeyJWTValidator) (keyID : String)
    (e : AuthErr) (v' : MultiKeyJWTValidator) (n : Nat)
    (h : MultiKeyJWTValidator.getKey v keyID = (.error e, v', n)) :
    e = .fetchFailed ∨ e = .keyNotFound := by
  unfold MultiKeyJWTValidator.getKey at h
  split at h
  · simp at h
  · split at h
    · simp only [Prod.mk.injEq, Except.error.injEq] at h
      exact .inl h.1.symm
    · split at h
      · simp at h
      · simp only [Prod.mk.injEq, Except.error.injEq] at h
        exact .inr h.1.symm

/-- Claim C4 (amended): the string-key-id revision of the gate normalizes
all four observed kid encodings — string, float64, int64, int — to one
canonical string key-id before the key lookup and never rejects them as
having an invalid kid format; the uint64-key-id revision normalizes only the
three numeric encodings to a canonical uint64 and rejects a string kid as
invalid kid format. -/
theorem c4_kid_normalization
    (enc : KidEnc) (henc : enc ≠ .other)
    (v : MultiKeyJWTValidator) (t : Token) (now : Int)
    (hkid : t.kid = some enc)
    (u : MultiKeyJWTValidatorU64) (t' : Token) (now' : Int) (s : String)
    (hu : u.allowNoneSignature = false) (hkid' : t'.kid = some (.str s)) :
    (MultiKeyJWTValidator.normalizeKid enc).isSome = true
    ∧ (MultiKeyJWTValidator.middleware v (some t) now).1 ≠
        .rejected 401 .invalidKidFormat
    ∧ (∀ n : Int, MultiKeyJWTValidatorU64.normalizeKid (.f64 n) = some n.toNat
        ∧ MultiKeyJWTValidatorU64.normalizeKid (.i64 n) = some n.toNat
        ∧ MultiKeyJWTValidatorU64.normalizeKid (.int n) = some n.toNat)
    ∧ MultiKeyJWTValidatorU64.normalizeKid (.str s) = none
    ∧ MultiKeyJWTValidatorU64.middleware u (some t') now' =
        (.rejected 401 .invalidKidFormat, u, 0) := by
  refine ⟨?_, ?_, fun n => ⟨rfl, rfl, rfl⟩, rfl, ?_⟩
  · cases enc <;> simp [MultiKeyJWTValidator.normalizeKid] at henc ⊢
  · have hn : (MultiKeyJWTValidator.normalizeKid enc).isSome = true := by
      cases enc <;> simp [MultiKeyJWTValidator.normalizeKid] at henc ⊢
    rcases Option.isSome_iff_exists.mp hn with ⟨keyID, hkeyID⟩
    by_cases hA : v.allowNoneSignature
    · by_cases hNone : t.alg == .noneAlg
      · simp only [MultiKeyJWTValidator.middleware, hA, if_true, hNone]
        cases firstFailedPerm v.permissions t.claims <;> simp
      · simp only [MultiKeyJWTValidator.middleware, hA, if_true, hNone,
          Bool.false_eq_true, if_false, hkid, hkeyID]
        rcases hg : MultiKeyJWTValidator.getKey v keyID with ⟨res, v', n⟩
        cases res with
        | error e =>
          rcases getKey_error_shape v keyID e v' n hg with h | h <;> simp [h]
        | ok key =>
          by_cases hR : t.alg.isRSA
          · simp only [hR, Bool.not_true, Bool.false_eq_true, if_false]
            by_cases hS : (t.sig == some key && expOk now t.claims) = true
            · simp only [hS, if_true]
              cases firstFailedPerm v.permissions t.claims <;> simp
            · simp [hS]
          · simp [hR]
    · simp only [MultiKeyJWTValidator.middleware, hA, Bool.false_eq_true,
        if_false, hkid, hkeyID]
      rcases hg : MultiKeyJWTValidator.getKey v keyID with ⟨res, v', n⟩
      cases res with
      | error e =>
        rcases getKey_error_shape v keyID e v' n hg with h | h <;> simp [h]
      | ok key =>
        by_cases hR : t.alg.isRSA
        · simp only [hR, Bool.not_true, Bool.false_eq_true, if_false]
          by_cases hS : (t.sig == some key && expOk now t.claims) = true
          · simp only [hS, if_true]
            cases firstFailedPerm v.permissions t.claims <;> simp
          · simp [hS]
        · simp [hR]
  · simp only [MultiKeyJWTValidatorU64.middleware, hu, Bool.false_eq_true,
      if_false, hkid']
    rfl

/-- C4 witness input: a string-revision validator caching key pair 4 under
kid `"2"`. -/
def c4WValidator : MultiKeyJWTValidator :=
  { keyCache := [("2", 4)], provider := .ok [],
    allowNoneSignature := false, permissions := [] }

/-- C4 witness input: a token whose kid arrives as a `float64` value `2`. -/
def c4WToken : Token :=
  { alg := .RS256, kid := some (.f64 2), claims := [], sig := some 4 }

/-- C4 witness input: a uint64-revision validator with an empty cache. -/
def c4WU64Validator : MultiKeyJWTValidatorU64 :=
  { keyCache := [], provider := .ok [],
    allowNoneSignature := false, permissions := [] }

/-- C4 witness input: a token whose kid arrives as the string `"k"`. -/
def c4WU64Token : Token :=
  { alg := .RS256, kid := some (.str "k"), claims := [], sig := none }

/-- Witness for the amended claim C4 at concrete inputs: a float64 kid is
not rejected as invalid kid format by the string revision, the uint64
revision normalizes the numeric kid `3`, and the uint64 revision rejects a
string kid as invalid kid format. -/
theorem c4_kid_normalization_witness :
    (MultiKeyJWTValidator.middleware c4WValidator (some c4WToken) 0).1 ≠
      .rejected 401 .invalidKidFormat
    ∧ MultiKeyJWTValidatorU64.normalizeKid (.f64 3) = some 3
    ∧ MultiKeyJWTValidatorU64.middleware c4WU64Validator (some c4WU64Token) 0 =
      (.rejected 401 .invalidKidFormat, c4WU64Validator, 0) := by
  have h := c4_kid_normalization (.f64 2) (by decide) c4WValidator c4WToken 0
    rfl c4WU64Validator c4WU64Token 0 "k" rfl rfl
  exact ⟨h.2.1, (h.2.2.1 3).1, h.2.2.2.2⟩

/-! ## Claim C5: the key cache refresh -/

/-- Lookup after insert-or-replace: the inserted key maps to the new value,
every other key is unaffected. -/
theorem lookupAssoc_insertAssoc {V : Type} (l : List (String × V))
    (k x : String) (v : V) :
    lookupAssoc (insertAssoc l k v) x =
      if k = x then some v else lookupAssoc l x := by
  induction l with
  | nil => simp [insertAssoc, lookupAssoc]
  | cons hd tl ih =>
    obtain ⟨a, w⟩ := hd
    by_cases hak : a = k
    · subst hak
      by_cases hax : a = x <;> simp [insertAssoc, lookupAssoc, hax]
    · by_cases hax : a = x
      · subst hax
        have : ¬ k = a := fun hc => hak hc.symm
        simp [insertAssoc, lookupAssoc, hak, this]
      · simp [insertAssoc, lookupAssoc, hak, hax, ih]

/-- A key absent from the fetched set keeps its old cache binding after the
refresh loop. -/
theorem lookupAssoc_foldl_notMem (keys : List (String × Nat))
    (c : List (String × Nat)) (x : String)
    (hx : x ∉ keys.map Prod.fst) :
    lookupAssoc (keys.foldl (fun c p => insertAssoc c p.1 p.2) c) x =
      lookupAssoc c x := by
  induction keys generalizing c with
  | nil => rfl
  | cons hd tl ih =>
    obtain ⟨a, w⟩ := hd
    simp only [List.map_cons, List.mem_cons] at hx
    push_neg at hx
    have h1 : a ≠ x := fun hc => hx.1 hc.symm
    simp only [List.foldl_cons]
    rw [ih _ hx.2, lookupAssoc_insertAssoc, if_neg h1]

/-- After the refresh loop every fetched binding is in the cache (fetched
key-ids are distinct, as keys of a Go map). -/
theorem lookupAssoc_foldl_mem (keys : List (String × Nat))
    (c : List (String × Nat)) (x : String) (k : Nat)
    (hnd : (keys.map Prod.fst).Nodup) (hmem : (x, k) ∈ keys) :
    lookupAssoc (keys.foldl (fun c p => insertAssoc c p.1 p.2) c) x =
      some k := by
  induction keys generalizing c with
  | nil => cases hmem
  | cons hd tl ih =>
    obtain ⟨a, w⟩ := hd
    simp only [List.map_cons, List.nodup_cons] at hnd
    rcases List.mem_cons.mp hmem with heq | htl
    · cases heq
      have hx : x ∉ tl.map Prod.fst := hnd.1
      simp only [List.foldl_cons]
      rw [lookupAssoc_foldl_notMem _ _ _ hx, lookupAssoc_insertAssoc, if_pos rfl]
    · exact ih _ hnd.2 htl

/-- Claim C5 (amended): on a cache hit `getKey` performs no remote fetch and
leaves the cache unchanged; on a miss it calls the remote fetch exactly once
and merges the fetched set into the cache — each fetched key-id now maps to
its fetched key, while previously cached key-ids absent from the fetched set
keep their old bindings (the cache is not replaced wholesale) — then retries
the lookup, failing with a key-not-found error if the key-id is still
absent; a remote-fetch error is propagated and the cache is left unchanged
(no failure is cached). -/
theorem c5_getKey_refresh (v : MultiKeyJWTValidator) (keyID : String) :
    (∀ k, lookupAssoc v.keyCache keyID = some k →
      MultiKeyJWTValidator.getKey v keyID = (.ok k, v, 0))
    ∧ (lookupAssoc v.keyCache keyID = none →
        (MultiKeyJWTValidator.getKey v keyID).2.2 = 1)
    ∧ (lookupAssoc v.keyCache keyID = none → v.provider = .error () →
        MultiKeyJWTValidator.getKey v keyID = (.error .fetchFailed, v, 1))
    ∧ (∀ keys, lookupAssoc v.keyCache keyID = none → v.provider = .ok keys →
        ((keys.map Prod.fst).Nodup → ∀ id k, (id, k) ∈ keys →
          lookupAssoc ((MultiKeyJWTValidator.getKey v keyID).2.1).keyCache id =
            some k)
        ∧ (∀ id, id ∉ keys.map Prod.fst →
            lookupAssoc ((MultiKeyJWTValidator.getKey v keyID).2.1).keyCache id =
              lookupAssoc v.keyCache id)
        ∧ (keyID ∉ keys.map Prod.fst →
            (MultiKeyJWTValidator.getKey v keyID).1 = .error .keyNotFound)
        ∧ (∀ k, (keys.map Prod.fst).Nodup → (keyID, k) ∈ keys →
            (MultiKeyJWTValidator.getKey v keyID).1 = .ok k)) := by
  refine ⟨?_, ?_, ?_, ?_⟩
  · intro k hk
    simp [MultiKeyJWTValidator.getKey, hk]
  · intro hmiss
    simp only [MultiKeyJWTValidator.getKey, hmiss]
    split
    · rfl
    · split <;> rfl
  · intro hmiss hprov
    simp [MultiKeyJWTValidator.getKey, hmiss, hprov]
  · intro keys hmiss hprov
    have hcache : ((MultiKeyJWTValidator.getKey v keyID).2.1).keyCache =
        keys.foldl (fun c p => insertAssoc c p.1 p.2) v.keyCache := by
      simp only [MultiKeyJWTValidator.getKey, hmiss, hprov]
      split <;> rfl
    refine ⟨?_, ?_, ?_, ?_⟩
    · intro hnd id k hmem
      rw [hcache]
      exact lookupAssoc_foldl_mem keys v.keyCache id k hnd hmem
    · intro id hid
      rw [hcache]
      exact lookupAssoc_foldl_notMem keys v.keyCache id hid
    · intro habs
      have habs2 : lookupAssoc (keys.foldl (fun c p => insertAssoc c p.1 p.2)
          v.keyCache) keyID = none := by
        rw [lookupAssoc_foldl_notMem keys v.keyCache keyID habs]
        exact hmiss
      simp [MultiKeyJWTValidator.getKey, hmiss, hprov, habs2]
    · intro k hnd hmem
      have hfound : lookupAssoc (keys.foldl (fun c p => insertAssoc c p.1 p.2)
          v.keyCache) keyID = some k :=
        lookupAssoc_foldl_mem keys v.keyCache keyID k hnd hmem
      simp [MultiKeyJWTValidator.getKey, hmiss, hprov, hfound]

/-- C5 counterexample input: a validator caching key pair 7 under kid
`"old"`, whose provider now publishes only kid `"new"`. -/
def c5Validator : MultiKeyJWTValidator :=
  { keyCache := [("old", 7)], provider := .ok [("new", 9)],
    allowNoneSignature := false, permissions := [] }

/-- Claim C5 counterexample: after the miss on `"new"` triggers a refresh,
the fetched set — which does not contain `"old"` — does not replace the
entire cache contents: the stale `"old"` entry is still cached.  The Go loop
`for id, pubKey := range keys { v.keyCache[id] = pubKey }` merges, it never
deletes. -/
theorem c5_stale_entry_survives_refresh :
    (MultiKeyJWTValidator.getKey c5Validator "new").1 = .ok 9
    ∧ lookupAssoc
        ((MultiKeyJWTValidator.getKey c5Validator "new").2.1).keyCache "old" =
      some 7
    ∧ "old" ∉ ([("new", 9)] : List (String × Nat)).map Prod.fst := by
  refine ⟨by decide, by decide, by decide⟩

/-- Witness for the amended claim C5 at concrete inputs: a fetch error is
propagated with the cache unchanged, the miss on `"new"` fetches once and
resolves key 9, the stale `"old"` binding survives the merge, and a hit on
`"old"` makes no fetch. -/
theorem c5_getKey_refresh_witness :
    MultiKeyJWTValidator.getKey { c5Validator with provider := .error () }
        "new" =
      (.error .fetchFailed, { c5Validator with provider := .error () }, 1)
    ∧ (MultiKeyJWTValidator.getKey c5Validator "new").1 = .ok 9
    ∧ (MultiKeyJWTValidator.getKey c5Validator "new").2.2 = 1
    ∧ lookupAssoc
        ((MultiKeyJWTValidator.getKey c5Validator "new").2.1).keyCache "old" =
      some 7
    ∧ MultiKeyJWTValidator.getKey c5Validator "old" = (.ok 7, c5Validator, 0) := by
  have h1 := c5_getKey_refresh c5Validator "new"
  have h2 := c5_getKey_refresh { c5Validator with provider := .error () } "new"
  refine ⟨h2.2.2.1 (by decide) rfl, ?_, h1.2.1 (by decide), ?_,
    (c5_getKey_refresh c5Validator "old").1 7 (by decide)⟩
  · exact (h1.2.2.2 [("new", 9)] (by decide) rfl).2.2.2 9 (by decide) (by decide)
  · exact ((h1.2.2.2 [("new", 9)] (by decide) rfl).2.1 "old" (by decide)).trans
      (by decide)

/-! ## Claim C6: the fleet listing never exposes the revocation token

`common.Server` (`src/unnamed/part_004`, second revision) tags
`RevocationToken` with `json:"-"`, so `encoding/json` omits it; the other
eight fields carry explicit json tags.  `GET /api/v1/servers`
(`cmd/control/routes.go`) encodes `{"servers": servers}` where the records
come from the store with their revocation tokens populated
(`cmd/control/db.go` `GetAllServers`). -/

/-- JSON values produced by `encoding/json`.  Latitude/longitude are
`float64` in Go; only their serialized identity matters here, so the numeric
payload is abstracted as `Int`. -/
inductive JVal where
  | jstr (v : String)
  | jnum (v : Int)
  | jbool (v : Bool)
  | jarr (xs : List JVal)
  | jobj (fields : List (String × JVal))

/-- `common.Server`: the eight public fields plus the private
`RevocationToken`. -/
structure Server where
  proxyURL : String
  latitude : Int
  longitude : Int
  city : String
  country : String
  supportsConnectTCP : Bool
  supportsConnectUDP : Bool
  supportsConnectIP : Bool
  revocationToken : String

/-- `json.Marshal` on a `common.Server` value: fields in declaration order
under their json tag names; `RevocationToken` has tag `json:"-"` and is
omitted. -/
def Server.toJSON (s : Server) : List (String × JVal) :=
  [("proxyUrl", .jstr s.proxyURL),
   ("latitude", .jnum s.latitude),
   ("longitude", .jnum s.longitude),
   ("city", .jstr s.city),
   ("country", .jstr s.country),
   ("supportsConnectTcp", .jbool s.supportsConnectTCP),
   ("supportsConnectUdp", .jbool s.supportsConnectUDP),
   ("supportsConnectIp", .jbool s.supportsConnectIP)]

/-- The body of the `GET /api/v1/servers` response:
`{"servers": [...records...]}`. -/
def serversResponse (records : List Server) : JVal :=
  .jobj [("servers", .jarr (records.map (fun s => .jobj s.toJSON)))]

/-- The public schema of a listed server record. -/
def publicServerFields : List String :=
  ["proxyUrl", "latitude", "longitude", "city", "country",
   "supportsConnectTcp", "supportsConnectUdp", "supportsConnectIp"]

/-- Claim C6: the fleet listing response never contains a `revocationToken`
field or any field outside the public schema — the serialized field names of
every record are exactly the public schema, which excludes
`revocationToken` — and, as a hyperproperty, rewriting the stored records'
revocation tokens arbitrarily leaves the listing response unchanged (so two
stored records differing only in their revocation tokens produce identical
listings). -/
theorem c6_listing_excludes_revocation_token
    (records : List Server) (rewriteTok : Server → String) (s : Server) :
    serversResponse
        (records.map (fun r => { r with revocationToken := rewriteTok r })) =
      serversResponse records
    ∧ (Server.toJSON s).map Prod.fst = publicServerFields
    ∧ "revocationToken" ∉ (Server.toJSON s).map Prod.fst := by
  refine ⟨?_, rfl, ?_⟩
  case refine_2 => simp [Server.toJSON]
  simp only [serversResponse, JVal.jobj.injEq]
  induction records with
  | nil => rfl
  | cons hd tl ih =>
    injection ih with ih1 ihrest
    injection ih1 with ih2 ih3
    injection ih3 with ih4
    simp only [List.map_cons]
    rw [ih4]
    rfl

/-! ## Claim C7: the revocation registry -/

/-- The `RevocationService` state: the set of revoked token ids, modelled as
a duplicate-free list (the key set of `revokedTokens map[string]struct{}`). -/
abbrev RevocationState := List String

namespace RevocationService

/-- `Revoke`: idempotent insert (`s.revokedTokens[jti] = struct{}{}`). -/
def revoke (s : RevocationState) (jti : String) : RevocationState :=
  if jti ∈ s then s else jti :: s

/-- `IsRevoked`: membership lookup. -/
def isRevoked (s : RevocationState) (jti : String) : Bool :=
  decide (jti ∈ s)

/-- `GetRevokedList`: a copy of the set. -/
def getRevokedList (s : RevocationState) : List String := s

/-- The operations a client can perform on the service. -/
inductive Op where
  | revokeOp (jti : String)
  | isRevokedOp (jti : String)
  | getRevokedListOp

/-- State transition of one operation: only `Revoke` writes; the two reads
leave the state unchanged. -/
def step (s : RevocationState) : Op → RevocationState
  | .revokeOp jti => revoke s jti
  | .isRevokedOp _ => s
  | .getRevokedListOp => s

/-- Run a sequence of operations from a state. -/
def run (s : RevocationState) (ops : List Op) : RevocationState :=
  ops.foldl step s

end RevocationService

/-- The trace predicate "this operation is `Revoke jti`". -/
def isRevokeOf (jti : String) : RevocationService.Op → Bool
  | .revokeOp j => j == jti
  | _ => false

/-- Claim C7: for every jti and every operation sequence, `IsRevoked jti`
after the run from the empty registry is true exactly when some
`Revoke jti` occurs in the sequence — so it is false until `Revoke jti` is
called and true forever afterwards (any extension of the trace keeps it
true); `Revoke` is an idempotent insert; and no operation ever removes an
entry or expires it (each step's revoked set only grows: membership after a
step is membership before, or the step is exactly `Revoke` of that id). -/
theorem c7_revocation_monotone (ops : List RevocationService.Op)
    (jti : String) (s : RevocationState) (o : RevocationService.Op) :
    RevocationService.isRevoked (RevocationService.run [] ops) jti =
      ops.any (isRevokeOf jti)
    ∧ RevocationService.revoke (RevocationService.revoke s jti) jti =
      RevocationService.revoke s jti
    ∧ RevocationService.isRevoked (RevocationService.step s o) jti =
      (RevocationService.isRevoked s jti || isRevokeOf jti o) := by
  have hstep : ∀ (s' : RevocationState) (o' : RevocationService.Op),
      RevocationService.isRevoked (RevocationService.step s' o') jti =
        (RevocationService.isRevoked s' jti || isRevokeOf jti o') := by
    intro s' o'
    cases o' with
    | revokeOp j =>
      by_cases hj : j = jti
      · subst hj
        simp [RevocationService.step, RevocationService.revoke,
          RevocationService.isRevoked, isRevokeOf]
        by_cases hm : j ∈ s' <;> simp [hm]
      · have hj2 : (j == jti) = false := by simp [hj]
        simp only [RevocationService.step, RevocationService.revoke,
          RevocationService.isRevoked, isRevokeOf, hj2, Bool.or_false]
        by_cases hm : j ∈ s'
        · simp [hm]
        · have hne : jti ≠ j := fun hc => hj hc.symm
          simp only [hm, if_false, Bool.false_eq_true]
          simp [RevocationService.isRevoked, List.mem_cons, hne]
    | isRevokedOp j => simp [RevocationService.step, isRevokeOf]
    | getRevokedListOp => simp [RevocationService.step, isRevokeOf]
  refine ⟨?_, ?_, hstep s o⟩
  · have hgen : ∀ (start : RevocationState),
        RevocationService.isRevoked (RevocationService.run start ops) jti =
          (RevocationService.isRevoked start jti || ops.any (isRevokeOf jti)) := by
      induction ops with
      | nil => intro start; simp [RevocationService.run]
      | cons hd tl ih =>
        intro start
        simp only [RevocationService.run, List.foldl_cons, List.any_cons]
        have := ih (RevocationService.step start hd)
        simp only [RevocationService.run] at this
        rw [this, hstep start hd, Bool.or_assoc]
    have h0 := hgen []
    simpa [RevocationService.isRevoked] using h0
  · simp only [RevocationService.revoke]
    by_cases hm : jti ∈ s
    · simp [hm]
    · simp [hm]

/-! ## Claim C8: the CONNECT tunnel handlers

Both handlers are modelled as the ordered trace of their externally visible
actions.  `dialOk` abstracts whether `net.DialTimeout("tcp", host, 10s)`
succeeds, `hijackSupported` whether the `http.Hijacker` type assertion on the
ResponseWriter succeeds, and `hijackOk` whether `Hijack()` itself succeeds. -/

/-- Observable events of a CONNECT handler, in execution order. -/
inductive TunnelEv where
  | dialAttempt (host : String)
  | wroteStatus (code : Nat)
  | hijackCalled
  | httpError (code : Nat)
  | relay
  deriving DecidableEq, Repr

/-- `HandleConnectRequest` (`cmd/proxy/connect.go`): reject non-CONNECT with
405; take `r.Host`, falling back to `r.URL.Host`; reject an empty host with
400 before dialing; dial, 502 on failure; write the 200 status; assert
`http.Hijacker` (500 if unsupported); hijack (plain return on failure); then
relay. -/
def handleConnectRequest (method host urlHost : String)
    (dialOk hijackSupported hijackOk : Bool) : List TunnelEv :=
  if method ≠ "CONNECT" then [.httpError 405]
  else
    let h := if host ≠ "" then host else urlHost
    if h = "" then [.httpError 400]
    else if !dialOk then [.dialAttempt h, .httpError 502]
    else if !hijackSupported then [.dialAttempt h, .wroteStatus 200, .httpError 500]
    else if !hijackOk then [.dialAttempt h, .wroteStatus 200, .hijackCalled]
    else [.dialAttempt h, .wroteStatus 200, .hijackCalled, .relay]

namespace ConnectHandler

/-- `ConnectHandler.handleConnect` (`proxy/connect.go`): same pipeline but
with no empty-host check — the dial is attempted whatever the host — and
with an `http.Error 500` after a failed `Hijack()`. -/
def handleConnect (method host urlHost : String)
    (dialOk hijackSupported hijackOk : Bool) : List TunnelEv :=
  if method ≠ "CONNECT" then [.httpError 405]
  else
    let h := if host ≠ "" then host else urlHost
    if !dialOk then [.dialAttempt h, .httpError 502]
    else if !hijackSupported then [.dialAttempt h, .wroteStatus 200, .httpError 500]
    else if !hijackOk then
      [.dialAttempt h, .wroteStatus 200, .hijackCalled, .httpError 500]
    else [.dialAttempt h, .wroteStatus 200, .hijackCalled, .relay]

end ConnectHandler

/-- Claim C8 counterexample: `ConnectHandler.handleConnect` on a CONNECT
request with an empty target host attempts the dial (`net.DialTimeout` with
the empty address) and answers 502 when it fails — not 400 without dialing
as the claim states; the function contains no empty-host check. -/
theorem c8_connecthandler_empty_host_dials :
    ConnectHandler.handleConnect "CONNECT" "" "" false true true =
      [.dialAttempt "", .httpError 502]
    ∧ TunnelEv.dialAttempt "" ∈
        ConnectHandler.handleConnect "CONNECT" "" "" false true true
    ∧ TunnelEv.httpError 400 ∉
        ConnectHandler.handleConnect "CONNECT" "" "" false true true := by
  refine ⟨by decide, by decide, by decide⟩

/-- Claim C8 (amended): a non-CONNECT method is rejected with 405 by both
handlers; an empty target host is rejected with 400 without any dial attempt
by `HandleConnectRequest`, while `ConnectHandler.handleConnect` attempts the
dial even then; a dial failure yields 502 with no hijack in both; and on
dial success both write the 200-OK status to the client strictly before the
client connection is hijacked. -/
theorem c8_tunnel_validation (method host urlHost : String)
    (dialOk hijackSupported hijackOk : Bool) :
    (method ≠ "CONNECT" →
      handleConnectRequest method host urlHost dialOk hijackSupported hijackOk
        = [.httpError 405]
      ∧ ConnectHandler.handleConnect method host urlHost dialOk
          hijackSupported hijackOk = [.httpError 405])
    ∧ (host = "" → urlHost = "" →
        handleConnectRequest "CONNECT" host urlHost dialOk hijackSupported
          hijackOk = [.httpError 400]
        ∧ ∀ h, TunnelEv.dialAttempt h ∉
            handleConnectRequest "CONNECT" host urlHost dialOk hijackSupported
              hijackOk)
    ∧ (dialOk = false →
        ∀ t, (t = handleConnectRequest "CONNECT" host urlHost false
                hijackSupported hijackOk
              ∧ (host ≠ "" ∨ urlHost ≠ ""))
            ∨ t = ConnectHandler.handleConnect "CONNECT" host urlHost false
                hijackSupported hijackOk →
          TunnelEv.httpError 502 ∈ t ∧ TunnelEv.hijackCalled ∉ t
            ∧ TunnelEv.wroteStatus 200 ∉ t)
    ∧ (dialOk = true → (host ≠ "" ∨ urlHost ≠ "") →
        ∀ t, t = handleConnectRequest "CONNECT" host urlHost true
              hijackSupported hijackOk
            ∨ t = ConnectHandler.handleConnect "CONNECT" host urlHost true
              hijackSupported hijackOk →
          ∃ rest, t = .dialAttempt (if host ≠ "" then host else urlHost) ::
              .wroteStatus 200 :: rest
            ∧ (TunnelEv.hijackCalled ∈ t → TunnelEv.hijackCalled ∈ rest)) := by
  refine ⟨?_, ?_, ?_, ?_⟩
  · intro hm
    constructor <;>
      simp [handleConnectRequest, ConnectHandler.handleConnect, hm]
  · intro hh hu
    subst hh; subst hu
    constructor
    · simp [handleConnectRequest]
    · intro h
      simp [handleConnectRequest]
  · intro hd t hcase
    have hgoal : ∀ hst : String,
        TunnelEv.httpError 502 ∈ ([.dialAttempt hst, .httpError 502] : List TunnelEv)
        ∧ TunnelEv.hijackCalled ∉ ([.dialAttempt hst, .httpError 502] : List TunnelEv)
        ∧ TunnelEv.wroteStatus 200 ∉ ([.dialAttempt hst, .httpError 502] : List TunnelEv) := by
      intro hst
      refine ⟨by simp, by simp, by simp⟩
    rcases hcase with ⟨ht, hne⟩ | ht
    · have hnonempty : ¬ (if host ≠ "" then host else urlHost) = "" := by
        rcases hne with h1 | h1
        · simp [h1]
        · by_cases h2 : host = "" <;> simp [h2, h1]
      rw [ht]
      simp only [handleConnectRequest, if_neg (by simp : ¬ ("CONNECT" : String) ≠ "CONNECT"),
        if_neg hnonempty, Bool.not_false, if_pos rfl]
      exact hgoal _
    · rw [ht]
      simp only [ConnectHandler.handleConnect,
        if_neg (by simp : ¬ ("CONNECT" : String) ≠ "CONNECT"), Bool.not_false,
        if_pos rfl]
      exact hgoal _
  · intro hd hne t hcase
    have hnonempty : ¬ (if host ≠ "" then host else urlHost) = "" := by
      rcases hne with h1 | h1
      · simp [h1]
      · by_cases h2 : host = "" <;> simp [h2, h1]
    rcases hcase with ht | ht <;> rw [ht]
    · simp only [handleConnectRequest,
        if_neg (by simp : ¬ ("CONNECT" : String) ≠ "CONNECT"),
        if_neg hnonempty, Bool.not_true, Bool.false_eq_true, if_false]
      by_cases hs : hijackSupported
      · by_cases hk : hijackOk
        · refine ⟨[.hijackCalled, .relay], ?_, ?_⟩
          · simp [hs, hk]
          · intro hmem
            simp
        · refine ⟨[.hijackCalled], ?_, ?_⟩
          · simp [hs, hk]
          · intro hmem
            simp
      · have hsf : hijackSupported = false := by
          cases hijackSupported
          · rfl
          · exact absurd rfl hs
        refine ⟨[.httpError 500], ?_, ?_⟩
        · simp [hsf]
        · intro hmem
          simp [hsf] at hmem
    · simp only [ConnectHandler.handleConnect,
        if_neg (by simp : ¬ ("CONNECT" : String) ≠ "CONNECT"), Bool.not_true,
        Bool.false_eq_true, if_false]
      by_cases hs : hijackSupported
      · by_cases hk : hijackOk
        · refine ⟨[.hijackCalled, .relay], ?_, ?_⟩
          · simp [hs, hk]
          · intro hmem
            simp
        · refine ⟨[.hijackCalled, .httpError 500], ?_, ?_⟩
          · simp [hs, hk]
          · intro hmem
            simp
      · have hsf : hijackSupported = false := by
          cases hijackSupported
          · rfl
          · exact absurd rfl hs
        refine ⟨[.httpError 500], ?_, ?_⟩
        · simp [hsf]
        · intro hmem
          simp [hsf] at hmem

/-- Witness for the amended claim C8 at concrete inputs: 405 for a GET, 400
with no dial for a CONNECT with empty host (`HandleConnectRequest`), 502
with no hijack and no 200 on dial failure, and on dial success the trace is
dial, then the 200 status write, then the rest (where any hijack happens). -/
theorem c8_tunnel_validation_witness :
    handleConnectRequest "GET" "example.com:443" "" true true true =
      [.httpError 405]
    ∧ handleConnectRequest "CONNECT" "" "" true true true = [.httpError 400]
    ∧ TunnelEv.hijackCalled ∉
        handleConnectRequest "CONNECT" "example.com:443" "" false true true
    ∧ (∃ rest,
        handleConnectRequest "CONNECT" "example.com:443" "" true true true =
          .dialAttempt "example.com:443" :: .wroteStatus 200 :: rest) := by
  refine ⟨?_, ?_, ?_, ?_⟩
  · exact (((c8_tunnel_validation "GET" "example.com:443" "" true true
      true).1) (by decide)).1
  · exact ((c8_tunnel_validation "CONNECT" "" "" true true true).2.1 rfl rfl).1
  · exact (((c8_tunnel_validation "CONNECT" "example.com:443" "" false true
      true).2.2.1 rfl
        (handleConnectRequest "CONNECT" "example.com:443" "" false true true)
        (.inl ⟨rfl, .inl (by decide)⟩))).2.1
  · obtain ⟨rest, hr, -⟩ :=
      (c8_tunnel_validation "CONNECT" "example.com:443" "" true true
        true).2.2.2 rfl (.inl (by decide))
        (handleConnectRequest "CONNECT" "example.com:443" "" true true true)
        (.inl rfl)
    exact ⟨rest, by simpa using hr⟩

/-! ## Claim C9: single rotation under concurrent token requests

The `/api/v1/token` route of `cmd/control/routes.go` holds the current
`common.JWTKey` behind `jwtKeyMutex` (an `RWMutex`): the read-locked fast
path checks `IsExpired`, and on expiry the caller upgrades to the write
lock, re-checks, and only then generates a new key with `common.NewJWTKey`,
persists it with `db.PutJWTKey` and replaces the current-key reference
(double-checked locking).  The write lock serializes the check-and-rotate
sections, so N concurrent callers are modelled by N serialized executions of
the rotate-if-expired section, each caller running it at most once (callers
whose read-locked check sees an unexpired key run the identity).
`NewJWTKey`'s random key id is modelled by the freshness counter `nextKid`;
key generation is modelled as never failing (`rsa.GenerateKey` from
`crypto/rand`). -/

/-- `common.JWTKey`, restricted to the fields the rotation logic reads. -/
structure JWTKeyM where
  kid : Nat
  expiresAt : Int
  deriving DecidableEq, Repr

/-- `JWTKey.IsExpired`: `ExpiresAt < 0 || ExpiresAt < time.Now().Unix()`. -/
def JWTKeyM.isExpired (now : Int) (k : JWTKeyM) : Bool :=
  k.expiresAt < 0 || k.expiresAt < now

/-- `common.NewJWTKey`: a fresh key pair with a fresh key id, expiring 24
hours (86400 seconds) from now. -/
def newJWTKey (now : Int) (nextKid : Nat) : JWTKeyM :=
  { kid := nextKid, expiresAt := now + 86400 }

/-- State shared by the `/token` route handlers: the current key, the list
of `db.PutJWTKey` writes (newest first), the number of `NewJWTKey`
generations, and the freshness counter backing the random key ids. -/
structure TokenRouteState where
  jwtKey : JWTKeyM
  store : List JWTKeyM
  genCount : Nat
  nextKid : Nat
  deriving DecidableEq, Repr

/-- One caller's pass through the double-checked rotation: if the current
key is expired (re-checked under the write lock), generate one new key,
persist (the code first re-puts the old key — the stray
`db.PutJWTKey(jwtKey)` at routes.go line 68 — then puts the new key) and
replace the reference; otherwise do nothing. -/
def tokenRouteStep (now : Int) (s : TokenRouteState) : TokenRouteState :=
  if (s.jwtKey.isExpired now) then
    { jwtKey := newJWTKey now s.nextKid,
      store := newJWTKey now s.nextKid :: s.jwtKey :: s.store,
      genCount := s.genCount + 1,
      nextKid := s.nextKid + 1 }
  else s

/-- N callers' rotation sections, serialized by the write lock. -/
def tokenRouteRun (now : Int) (s : TokenRouteState) : Nat → TokenRouteState
  | 0 => s
  | n + 1 => tokenRouteRun now (tokenRouteStep now s) n

/-- Claim C9: when the current signing key is expired, N ≥ 1 concurrent
callers of the token-issuing path produce exactly one new key generation;
that single key is persisted to the store and becomes the current-key
reference, and the remaining N-1 serialized sections change nothing (no
duplicate rotation). -/
theorem c9_single_rotation (now : Int) (s : TokenRouteState) (n : Nat)
    (hexp : s.jwtKey.isExpired now = true) (hnow : 0 ≤ now) (hn : 1 ≤ n) :
    (tokenRouteRun now s n).genCount = s.genCount + 1
    ∧ (tokenRouteRun now s n).jwtKey = newJWTKey now s.nextKid
    ∧ newJWTKey now s.nextKid ∈ (tokenRouteRun now s n).store
    ∧ tokenRouteRun now s n = tokenRouteStep now s := by
  have hfresh : (newJWTKey now s.nextKid).isExpired now = false := by
    simp only [newJWTKey, JWTKeyM.isExpired, Bool.or_eq_false_iff,
      decide_eq_false_iff_not, not_lt]
    constructor <;> omega
  have hstep : tokenRouteStep now s =
      { jwtKey := newJWTKey now s.nextKid,
        store := newJWTKey now s.nextKid :: s.jwtKey :: s.store,
        genCount := s.genCount + 1,
        nextKid := s.nextKid + 1 } := by
    simp [tokenRouteStep, hexp]
  have hfix : ∀ m, tokenRouteRun now (tokenRouteStep now s) m =
      tokenRouteStep now s := by
    intro m
    induction m with
    | zero => rfl
    | succ k ih =>
      have hid : tokenRouteStep now (tokenRouteStep now s) =
          tokenRouteStep now s := by
        rw [hstep]
        simp [tokenRouteStep, hfresh]
      simp only [tokenRouteRun, hid, ih]
  obtain ⟨m, rfl⟩ : ∃ m, n = m + 1 := ⟨n - 1, by omega⟩
  have hrun : tokenRouteRun now s (m + 1) = tokenRouteStep now s := by
    simp only [tokenRouteRun]
    exact hfix m
  rw [hrun, hstep]
  exact ⟨rfl, rfl, by simp, rfl⟩

/-- C9 witness input: an expired current key (it expired at 50, now is 100),
an empty store, no generations yet. -/
def c9WState : TokenRouteState :=
  { jwtKey := { kid := 0, expiresAt := 50 }, store := [], genCount := 0,
    nextKid := 1 }

/-- Witness for claim C9 at a concrete input: three serialized callers on an
expired key generate and persist exactly one new key and install it as the
current key. -/
theorem c9_single_rotation_witness :
    (tokenRouteRun 100 c9WState 3).genCount = 1
    ∧ (tokenRouteRun 100 c9WState 3).jwtKey = newJWTKey 100 1
    ∧ newJWTKey 100 1 ∈ (tokenRouteRun 100 c9WState 3).store := by
  have h := c9_single_rotation 100 c9WState 3 (by decide) (by decide)
    (by decide)
  exact ⟨h.1, h.2.1, h.2.2.1⟩

/-! ## Claim C10: the admin revocation handler

`AdminHandler.handleRevokeToken` (identical in `src/unnamed/part_006` and
`src/unnamed/part_021`): POST only, decode the JSON body into
`RevokeRequest{JTI string}`, reject an empty `JTI`, then
`RevocationSvc.Revoke(req.JTI)` and a success JSON response. -/

/-- The decoded request body as `json.NewDecoder(r.Body).Decode(&req)` sees
it: `malformed` when decoding errors, otherwise the optional `"jti"` field
(a missing field leaves the zero value `""`). -/
inductive RevokeBody where
  | malformed
  | parsed (jti : Option String)
  deriving DecidableEq, Repr

/-- `handleRevokeToken`: returns the HTTP status, the revocation registry
after the call, and the response body (the JSON object fields in Go's
sorted-key encoding order) when one is written. -/
def handleRevokeToken (method : String) (body : RevokeBody)
    (s : RevocationState) :
    Nat × RevocationState × Option (List (String × String)) :=
  if method ≠ "POST" then (405, s, none)
  else
    match body with
    | .malformed => (400, s, none)
    | .parsed jti =>
      let jtiStr := jti.getD ""
      if jtiStr = "" then (400, s, none)
      else (200, RevocationService.revoke s jtiStr,
        some [("message", "Token revoked"), ("status", "success")])

/-- Claim C10: the admin revocation handler validates before mutating: a
non-POST request gets 405, an unparsable body or an empty/missing `jti`
field gets 400, and in every one of these cases the revocation set is
untouched; only a POST with a non-empty `jti` calls `Revoke(jti)` — after
which that jti is revoked — and returns the success JSON response. -/
theorem c10_admin_revoke_validation (method : String) (body : RevokeBody)
    (s : RevocationState) (jti : String) :
    (method ≠ "POST" → handleRevokeToken method body s = (405, s, none))
    ∧ handleRevokeToken "POST" .malformed s = (400, s, none)
    ∧ handleRevokeToken "POST" (.parsed none) s = (400, s, none)
    ∧ handleRevokeToken "POST" (.parsed (some "")) s = (400, s, none)
    ∧ (jti ≠ "" →
        handleRevokeToken "POST" (.parsed (some jti)) s =
          (200, RevocationService.revoke s jti,
            some [("message", "Token revoked"), ("status", "success")])
        ∧ RevocationService.isRevoked
            (handleRevokeToken "POST" (.parsed (some jti)) s).2.1 jti = true) := by
  refine ⟨?_, by simp [handleRevokeToken], by simp [handleRevokeToken],
    by simp [handleRevokeToken], ?_⟩
  · intro hm
    simp [handleRevokeToken, hm]
  · intro hj
    constructor
    · simp [handleRevokeToken, hj]
    · simp only [handleRevokeToken, if_neg (by simp : ¬ ("POST" : String) ≠ "POST"),
        Option.getD_some, if_neg hj]
      simp [RevocationService.revoke, RevocationService.isRevoked]
      by_cases hm : jti ∈ s <;> simp [hm]

/-- Witness for claim C10 at concrete inputs: a GET is 405 and leaves the
set unchanged, and a POST revoking `"abc"` returns the success response with
`"abc"` revoked afterwards. -/
theorem c10_admin_revoke_validation_witness :
    handleRevokeToken "GET" (.parsed (some "abc")) [] = (405, [], none)
    ∧ handleRevokeToken "POST" (.parsed (some "abc")) [] =
        (200, RevocationService.revoke [] "abc",
          some [("message", "Token revoked"), ("status", "success")])
    ∧ RevocationService.isRevoked
        (handleRevokeToken "POST" (.parsed (some "abc")) []).2.1 "abc" = true := by
  have h := c10_admin_revoke_validation "GET" (.parsed (some "abc")) [] "abc"
  have h2 := c10_admin_revoke_validation "POST" (.parsed (some "abc")) [] "abc"
  exact ⟨h.1 (by decide), (h2.2.2.2.2 (by decide)).1, (h2.2.2.2.2 (by decide)).2⟩
